import Mathlib

/-!
Verification of the SME doc-generator frontend (Vue views and api service).

The placeholder extractor in `TemplateManagementView` and the
`templatePlaceholders` computation in `GenerateDocView` both run the regex
`/{([^}]+)}/g` over the template body via `String.prototype.match`, strip the
enclosing braces from each full match, and de-duplicate with `new Set`
(which preserves first-insertion order).  We embed the regex scan as an
explicit left-to-right scan over the character list: at an opening brace, the
greedy class `[^}]+` runs exactly up to the first closing brace; the match
succeeds iff that run is non-empty and a closing brace follows, and the scan
resumes after the closing brace; otherwise the scan advances one character.
-/

/-- One step of the regex scan consumes at least one character, so
`l.length` steps of fuel always suffice; the fuel argument only makes the
recursion structural. -/
def scanFuel : Nat → List Char → List String
  | 0, _ => []
  | _ + 1, [] => []
  | fuel + 1, c :: rest =>
    if c = '{' then
      match rest.dropWhile (fun ch => ch != '}') with
      | '}' :: tail =>
          let run := rest.takeWhile (fun ch => ch != '}')
          if run = [] then scanFuel fuel rest
          else String.mk run :: scanFuel fuel tail
      | _ => scanFuel fuel rest
    else scanFuel fuel rest

/-- The list of placeholder names produced by `content.match(/{([^}]+)}/g)`
with the braces of each match stripped (`match.slice(1, -1)`), in match
order, duplicates included. -/
def regexMatchNames (content : String) : List String :=
  scanFuel content.data.length content.data

/-- `[...new Set(xs)]` in JavaScript: remove exact-string duplicates keeping
the first occurrence of each element.  `seen` holds the elements already
emitted. -/
def dedupFirstAux (seen : List String) : List String → List String
  | [] => []
  | x :: xs =>
      if x ∈ seen then dedupFirstAux seen xs
      else x :: dedupFirstAux (x :: seen) xs

def dedupFirst (l : List String) : List String := dedupFirstAux [] l

/-- `extractPlaceholders` from TemplateManagementView: guard on falsy
`content` (empty string), run the regex, strip braces, de-duplicate with
`Set` keeping first occurrences. -/
def extractPlaceholders (content : String) : List String :=
  if content = "" then []
  else dedupFirst (regexMatchNames content)

/-- A prompt template as served by the backend and consumed by the views. -/
structure Template where
  id : String
  name : String
  document_type : String
  template_content : String
  is_active : Bool

/-- `templatePlaceholders` computed property from GenerateDocView: empty when
no template is selected or its `template_content` is falsy, otherwise the
same regex-and-Set pipeline. -/
def templatePlaceholders (selectedTemplate : Option Template) : List String :=
  match selectedTemplate with
  | none => []
  | some tpl =>
      if tpl.template_content = "" then []
      else dedupFirst (regexMatchNames tpl.template_content)

/-- Index of the first occurrence of `a`, used to state the
first-occurrence-order property of the extractor. -/
def firstIdx (a : String) : List String → Nat
  | [] => 0
  | b :: l => if b = a then 0 else firstIdx a l + 1

/-- JavaScript object property read `formData[p]`: `none` models
`undefined`. -/
def lookupKey (formData : List (String × String)) (k : String) : Option String :=
  match formData with
  | [] => none
  | (k', v) :: rest => if k' = k then some v else lookupKey rest k

/-- `isFormDataComplete` computed property from GenerateDocView. -/
def isFormDataComplete (selectedTemplate : Option Template)
    (formData : List (String × String)) : Bool :=
  match selectedTemplate with
  | none => false
  | some tpl =>
      (templatePlaceholders (some tpl)).all fun placeholder =>
        match lookupKey formData placeholder with
        | none => false
        | some v => v != ""

/-- Outcome of `generateDocument` in GenerateDocView: either the guard fires
and an error message is reported without any request, or the generation
request is issued with the selected template id and output format. -/
inductive GenerateOutcome where
  | errorMessage (text : String)
  | requestSent (template_id : String) (document_format : String)
deriving DecidableEq

/-- `generateDocument` from GenerateDocView up to the point the request is
issued: the guard `!selectedTemplate.value || !isFormDataComplete.value`
reports an error and returns before any API call. -/
def generateDocument (selectedTemplate : Option Template)
    (formData : List (String × String)) (outputFormat : String) :
    GenerateOutcome :=
  match selectedTemplate with
  | none =>
      GenerateOutcome.errorMessage
        "Please select a template and fill all required fields."
  | some tpl =>
      if isFormDataComplete (some tpl) formData then
        GenerateOutcome.requestSent tpl.id outputFormat
      else
        GenerateOutcome.errorMessage
          "Please select a template and fill all required fields."

/-- The reactive state of GenerateDocView that the `selectedTemplateId`
watcher touches. -/
structure GenState where
  templates : List Template
  selectedTemplateId : String
  selectedTemplate : Option Template
  formData : List (String × String)
  generatedDoc : Option String
  message : Option (String × String)

/-- The `watch(selectedTemplateId)` handler in GenerateDocView:
`selectedTemplate = templates.find(tpl => tpl.id === newId) || null`,
then `formData = {}`, `generatedDoc = null`, `message = null`. -/
def onSelectedTemplateIdChange (st : GenState) (newId : String) : GenState :=
  { st with
    selectedTemplateId := newId
    selectedTemplate := st.templates.find? fun tpl => tpl.id == newId
    formData := []
    generatedDoc := none
    message := none }

/-- A row of the document-history list as served by the backend. -/
structure HistoryRecord where
  id : String
  template_id : String
  document_format : String
  generated_at : String

/-- `getTemplateName` from DocHistoryView:
`templates.find(tpl => tpl.id === templateId)` then `.name` or `null`. -/
def getTemplateName (templates : List Template) (templateId : String) :
    Option String :=
  match templates.find? (fun tpl => tpl.id == templateId) with
  | some template => some template.name
  | none => none

/-- `getTemplateDocType` from DocHistoryView. -/
def getTemplateDocType (templates : List Template) (templateId : String) :
    Option String :=
  match templates.find? (fun tpl => tpl.id == templateId) with
  | some template => some template.document_type
  | none => none

/-- The table cell `getTemplateName(record.template_id) || 'Unknown Template'`:
JavaScript `||` also replaces an empty-string name, since `''` is falsy. -/
def displayTemplateName (templates : List Template) (templateId : String) :
    String :=
  match getTemplateName templates templateId with
  | some n => if n = "" then "Unknown Template" else n
  | none => "Unknown Template"

/-- The table cell `getTemplateDocType(record.template_id) || 'N/A'`. -/
def displayTemplateDocType (templates : List Template) (templateId : String) :
    String :=
  match getTemplateDocType templates templateId with
  | some t => if t = "" then "N/A" else t
  | none => "N/A"

/-- The document type a history record resolves to inside `filteredHistory`:
`template ? template.document_type : 'Unknown'`. -/
def recordDocType (templates : List Template) (r : HistoryRecord) : String :=
  match templates.find? (fun tpl => tpl.id == r.template_id) with
  | some template => template.document_type
  | none => "Unknown"

/-- `filteredHistory` computed property from DocHistoryView:
`!filters.docType || recordDocType === filters.docType`. -/
def filteredHistory (templates : List Template) (records : List HistoryRecord)
    (docTypeFilter : String) : List HistoryRecord :=
  records.filter fun r =>
    docTypeFilter == "" || recordDocType templates r == docTypeFilter

/-- `activeTemplates` computed property from GenerateDocView:
`templates.filter(tpl => tpl.is_active)`; the template select only offers
these. -/
def activeTemplates (templates : List Template) : List Template :=
  templates.filter fun tpl => tpl.is_active

/-- One element of the list returned by the backend settings endpoint, as
documented in apiService (`config_key`, `config_value`, `description`). -/
structure LLMSettingRow where
  config_key : String
  config_value : String
  description : String

/-- The reduce in apiService's `getLLMSettings`:
`acc[setting.config_key] = setting.config_value`, accumulated over the
response list starting from `{}`.  Settings keys are unique, so object
assignment is modelled by appending the pair.  Note the `description` field
of each row is discarded. -/
def getLLMSettingsObject (rows : List LLMSettingRow) :
    List (String × String) :=
  rows.foldl (fun acc setting => acc ++ [(setting.config_key, setting.config_value)]) []

/-- `testResult` values in TemplateManagementView:
`{ success, output }` with `output: null` on failure. -/
structure TestResult where
  success : Bool
  output : Option String
deriving DecidableEq

/-- The `testResult` / `testError` refs of TemplateManagementView. -/
structure TestState where
  testResult : Option TestResult
  testError : Option String
deriving DecidableEq

/-- Outcome of `JSON.parse(testInputDataJson)`: either it returns a value or
it throws a `SyntaxError` with some message.  `JSON.parse` is a browser
builtin (an external collaborator); only its success/failure shape matters
to the control flow of `testPrompt`. -/
inductive JsonParseResult where
  | ok
  | invalid (msg : String)

/-- Outcome of the `apiService.testTemplate` call, when it is reached. -/
inductive ApiOutcome where
  | success (test_output : String)
  | failure (msg : String)

/-- `testPrompt` from TemplateManagementView.  The returned `Bool` records
whether the `apiService.testTemplate` request was issued.  When
`JSON.parse` throws a `SyntaxError`, the catch block runs before any API
call: `testError` is set to the invalid-JSON message and `testResult` to
`{ success: false, output: null }`. -/
def testPrompt (testingTemplate : Option Template) (st : TestState)
    (parseOutcome : JsonParseResult) (api : ApiOutcome) : TestState × Bool :=
  match testingTemplate with
  | none => (st, false)
  | some _ =>
      match parseOutcome with
      | JsonParseResult.invalid msg =>
          ({ testResult := some { success := false, output := none }
             testError := some ("Invalid JSON in test input data: " ++ msg) },
           false)
      | JsonParseResult.ok =>
          match api with
          | ApiOutcome.success out =>
              ({ testResult := some { success := true, output := some out }
                 testError := none }, true)
          | ApiOutcome.failure msg =>
              ({ testResult := some { success := false, output := none }
                 testError := some ("Test failed: " ++ msg) }, true)

/-! ### Helper lemmas about the Set-based de-duplication -/

theorem mem_dedupFirstAux (a : String) (l : List String) :
    ∀ seen : List String, a ∈ dedupFirstAux seen l ↔ a ∈ l ∧ a ∉ seen := by
  induction l with
  | nil => intro seen; simp [dedupFirstAux]
  | cons x xs ih =>
    intro seen
    by_cases hax : a = x
    · subst hax
      by_cases hx : a ∈ seen <;>
        simp [dedupFirstAux, hx, ih, List.mem_cons]
    · by_cases hx : x ∈ seen <;>
        simp [dedupFirstAux, hx, hax, ih, List.mem_cons]

theorem nodup_dedupFirstAux (l : List String) :
    ∀ seen : List String, (dedupFirstAux seen l).Nodup := by
  induction l with
  | nil => intro seen; simp [dedupFirstAux]
  | cons x xs ih =>
    intro seen
    by_cases hx : x ∈ seen
    · simpa [dedupFirstAux, hx] using ih seen
    · rw [dedupFirstAux, if_neg hx]
      refine List.nodup_cons.mpr ⟨?_, ih _⟩
      intro hmem
      rw [mem_dedupFirstAux] at hmem
      exact hmem.2 (List.mem_cons_self x seen)

theorem firstIdx_dedupFirstAux (a b : String) (l : List String) :
    ∀ seen : List String, a ∈ l → b ∈ l → a ∉ seen → b ∉ seen →
      (firstIdx a (dedupFirstAux seen l) ≤ firstIdx b (dedupFirstAux seen l) ↔
        firstIdx a l ≤ firstIdx b l) := by
  induction l with
  | nil => intro seen ha; cases ha
  | cons x xs ih =>
    intro seen ha hb has hbs
    by_cases hx : x ∈ seen
    · have hax : ¬x = a := fun h => has (h ▸ hx)
      have hbx : ¬x = b := fun h => hbs (h ▸ hx)
      have ha' : a ∈ xs := by
        rcases List.mem_cons.mp ha with h | h
        · exact absurd h.symm hax
        · exact h
      have hb' : b ∈ xs := by
        rcases List.mem_cons.mp hb with h | h
        · exact absurd h.symm hbx
        · exact h
      rw [dedupFirstAux, if_pos hx]
      have hrec := ih seen ha' hb' has hbs
      simp only [firstIdx, if_neg hax, if_neg hbx]
      omega
    · rw [dedupFirstAux, if_neg hx]
      by_cases hax : x = a <;> by_cases hbx : x = b
      · simp only [firstIdx, if_pos hax, if_pos hbx]
      · simp only [firstIdx, if_pos hax, if_neg hbx]
        omega
      · simp only [firstIdx, if_neg hax, if_pos hbx]
        omega
      · have ha' : a ∈ xs := by
          rcases List.mem_cons.mp ha with h | h
          · exact absurd h.symm hax
          · exact h
        have hb' : b ∈ xs := by
          rcases List.mem_cons.mp hb with h | h
          · exact absurd h.symm hbx
          · exact h
        have has' : a ∉ x :: seen := by
          intro h
          rcases List.mem_cons.mp h with h' | h'
          · exact hax h'.symm
          · exact has h'
        have hbs' : b ∉ x :: seen := by
          intro h
          rcases List.mem_cons.mp h with h' | h'
          · exact hbx h'.symm
          · exact hbs h'
        have hrec := ih (x :: seen) ha' hb' has' hbs'
        simp only [firstIdx, if_neg hax, if_neg hbx]
        omega

/-! ### Helper lemmas about the regex scan -/

theorem scanFuel_no_open (fuel : Nat) :
    ∀ l : List Char, '{' ∉ l → scanFuel fuel l = [] := by
  induction fuel with
  | zero => intro l _; rfl
  | succ fuel ih =>
    intro l hl
    cases l with
    | nil => rfl
    | cons c rest =>
      have hc : ¬c = '{' := fun h => hl (h ▸ List.mem_cons_self c rest)
      rw [scanFuel, if_neg hc]
      exact ih rest fun h => hl (List.mem_cons_of_mem _ h)

theorem scanFuel_no_close (fuel : Nat) :
    ∀ l : List Char, '}' ∉ l → scanFuel fuel l = [] := by
  induction fuel with
  | zero => intro l _; rfl
  | succ fuel ih =>
    intro l hl
    cases l with
    | nil => rfl
    | cons c rest =>
      have hrest : '}' ∉ rest := fun h => hl (List.mem_cons_of_mem _ h)
      by_cases hc : c = '{'
      · have hdrop : rest.dropWhile (fun ch => ch != '}') = [] := by
          rw [List.dropWhile_eq_nil_iff]
          intro x hx
          have hxne : ¬x = '}' := fun h => hrest (h ▸ hx)
          simpa [bne_iff_ne] using hxne
        rw [scanFuel, if_pos hc, hdrop]
        exact ih rest hrest
      · rw [scanFuel, if_neg hc]
        exact ih rest hrest

/-! ### Claim theorems -/

/-- Claim C1: for every template body, the placeholder extractor returns the
regex match names with exact-string duplicates removed and first-occurrence
order preserved (no duplicates; same members as the raw match list; relative
order agrees with the order of first occurrences); in particular the body
`"{b} and {a} and {b}"` yields `["b", "a"]`. -/
theorem extractPlaceholders_nodup_first_occurrence :
    (∀ s : String, (extractPlaceholders s).Nodup) ∧
    (∀ s a : String, a ∈ extractPlaceholders s ↔ a ∈ regexMatchNames s) ∧
    (∀ s a b : String, a ∈ regexMatchNames s → b ∈ regexMatchNames s →
      (firstIdx a (extractPlaceholders s) ≤ firstIdx b (extractPlaceholders s) ↔
        firstIdx a (regexMatchNames s) ≤ firstIdx b (regexMatchNames s))) ∧
    extractPlaceholders "\x7bb\x7d and \x7ba\x7d and \x7bb\x7d" = ["b", "a"] := by
  have hempty : regexMatchNames "" = [] := rfl
  refine ⟨?_, ?_, ?_, by decide⟩
  · intro s
    by_cases hs : s = ""
    · subst hs; simp [extractPlaceholders]
    · simp only [extractPlaceholders, if_neg hs, dedupFirst]
      exact nodup_dedupFirstAux _ _
  · intro s a
    by_cases hs : s = ""
    · subst hs; simp [extractPlaceholders, hempty]
    · simp [extractPlaceholders, hs, dedupFirst, mem_dedupFirstAux]
  · intro s a b ha hb
    by_cases hs : s = ""
    · subst hs; rw [hempty] at ha; cases ha
    · simp only [extractPlaceholders, if_neg hs, dedupFirst]
      exact firstIdx_dedupFirstAux a b _ [] ha hb (List.not_mem_nil a)
        (List.not_mem_nil b)

/-- Closed instance of claim C1's membership component. -/
theorem extractPlaceholders_nodup_first_occurrence_witness :
    "a" ∈ extractPlaceholders "\x7ba\x7d" ↔ "a" ∈ regexMatchNames "\x7ba\x7d" :=
  extractPlaceholders_nodup_first_occurrence.2.1 "\x7ba\x7d" "a"

/-- Bridges `isFormDataComplete` with the completeness predicate on the
form-data map. -/
theorem isFormDataComplete_iff (tpl : Template)
    (formData : List (String × String)) :
    isFormDataComplete (some tpl) formData = true ↔
      ∀ p ∈ templatePlaceholders (some tpl),
        ∃ v, lookupKey formData p = some v ∧ v ≠ "" := by
  simp only [isFormDataComplete, List.all_eq_true]
  constructor
  · intro h p hp
    have hv := h p hp
    cases hlk : lookupKey formData p with
    | none => rw [hlk] at hv; cases hv
    | some v =>
        rw [hlk] at hv
        exact ⟨v, rfl, by simpa [bne_iff_ne] using hv⟩
  · intro h p hp
    obtain ⟨v, hv, hne⟩ := h p hp
    rw [hv]
    simpa [bne_iff_ne] using hne

/-- Claim C2: generation is permitted exactly when every placeholder of the
selected template has a present, non-empty value in the form-data map; when
any placeholder is absent or empty, `generateDocument` issues no request and
reports the error message instead. -/
theorem generateDocument_requires_complete_formData :
    ∀ (tpl : Template) (formData : List (String × String)) (fmt : String),
      (generateDocument (some tpl) formData fmt =
          GenerateOutcome.requestSent tpl.id fmt ↔
        ∀ p ∈ templatePlaceholders (some tpl),
          ∃ v, lookupKey formData p = some v ∧ v ≠ "") ∧
      (∀ p ∈ templatePlaceholders (some tpl),
        lookupKey formData p = none ∨ lookupKey formData p = some "" →
        generateDocument (some tpl) formData fmt =
          GenerateOutcome.errorMessage
            "Please select a template and fill all required fields.") := by
  intro tpl formData fmt
  by_cases hc : isFormDataComplete (some tpl) formData
  · have hall := (isFormDataComplete_iff tpl formData).mp hc
    refine ⟨?_, ?_⟩
    · simp only [generateDocument, if_pos hc]
      exact iff_of_true trivial hall
    · intro p hp hbad
      obtain ⟨v, hv, hne⟩ := hall p hp
      rcases hbad with h | h
      · rw [h] at hv; cases hv
      · rw [h] at hv
        injection hv with hv'
        exact absurd hv'.symm hne
  · refine ⟨?_, ?_⟩
    · simp only [generateDocument, if_neg hc]
      constructor
      · intro h; exact (GenerateOutcome.noConfusion h)
      · intro hall
        exact absurd ((isFormDataComplete_iff tpl formData).mpr hall) hc
    · intro p hp hbad
      simp only [generateDocument, if_neg hc]

/-- Closed instance of claim C2: with an empty form-data map, the template
`"Hi {name}"` produces the error message and no request. -/
theorem generateDocument_requires_complete_formData_witness :
    generateDocument (some ⟨"t1", "T1", "Quote", "Hi \x7bname\x7d", true⟩) []
        "pdf" =
      GenerateOutcome.errorMessage
        "Please select a template and fill all required fields." :=
  (generateDocument_requires_complete_formData
      ⟨"t1", "T1", "Quote", "Hi \x7bname\x7d", true⟩ [] "pdf").2
    "name" (by decide) (Or.inl rfl)

/-- Claim C3: the two client-side extractors (TemplateManagementView's
`extractPlaceholders` and GenerateDocView's `templatePlaceholders`) are pure
Lean functions of their input and return identical results for every input
string, whatever the other template fields are. -/
theorem templatePlaceholders_eq_extractPlaceholders :
    ∀ (i n d c : String) (act : Bool),
      templatePlaceholders (some ⟨i, n, d, c, act⟩) = extractPlaceholders c := by
  intro i n d c act
  by_cases hc : c = ""
  · subst hc; rfl
  · simp [templatePlaceholders, extractPlaceholders, hc]

/-- Claim C4: the empty string, any string with no opening brace, and any
string with no closing brace (hence any string without a brace-delimited
token) all extract to the empty list; in particular `"abc {def"` yields
`[]`. -/
theorem extractPlaceholders_no_token_empty :
    extractPlaceholders "" = [] ∧
    (∀ s : String, '{' ∉ s.data → extractPlaceholders s = []) ∧
    (∀ s : String, '}' ∉ s.data → extractPlaceholders s = []) ∧
    extractPlaceholders "abc \x7bdef" = [] := by
  refine ⟨rfl, ?_, ?_, by decide⟩
  · intro s hs
    by_cases h : s = ""
    · subst h; rfl
    · simp only [extractPlaceholders, if_neg h, regexMatchNames,
        scanFuel_no_open _ _ hs]
      rfl
  · intro s hs
    by_cases h : s = ""
    · subst h; rfl
    · simp only [extractPlaceholders, if_neg h, regexMatchNames,
        scanFuel_no_close _ _ hs]
      rfl

/-- Closed instance of claim C4's brace-less component. -/
theorem extractPlaceholders_no_token_empty_witness :
    extractPlaceholders "plain text" = [] :=
  extractPlaceholders_no_token_empty.2.1 "plain text" (by decide)

/-- Claim C5: the `selectedTemplateId` watcher resets the form data to the
empty map, clears the generated-document preview and the message, and the
resulting form data is independent of the previous state — even between two
arbitrary prior states. -/
theorem template_change_clears_form_state :
    ∀ (st₁ st₂ : GenState) (newId : String),
      (onSelectedTemplateIdChange st₁ newId).formData = [] ∧
      (onSelectedTemplateIdChange st₁ newId).generatedDoc = none ∧
      (onSelectedTemplateIdChange st₁ newId).message = none ∧
      (onSelectedTemplateIdChange st₁ newId).formData =
        (onSelectedTemplateIdChange st₂ newId).formData := by
  intro st₁ st₂ newId
  exact ⟨rfl, rfl, rfl, rfl⟩

/-- Claim C6: a history record whose template reference does not resolve is
still kept by `filteredHistory` (with no document-type filter) and its row
displays `"Unknown Template"` and `"N/A"`; in particular this covers the
state after a template-fetch failure, which leaves `templates` empty. -/
theorem history_unknown_template_fallback :
    ∀ (templates : List Template) (records : List HistoryRecord)
      (r : HistoryRecord),
      templates.find? (fun tpl => tpl.id == r.template_id) = none →
      r ∈ records →
      r ∈ filteredHistory templates records "" ∧
      displayTemplateName templates r.template_id = "Unknown Template" ∧
      displayTemplateDocType templates r.template_id = "N/A" := by
  intro templates records r hfind hr
  refine ⟨?_, ?_, ?_⟩
  · have htrue : (("" : String) == "") = true := rfl
    exact List.mem_filter.mpr ⟨hr, by rw [htrue, Bool.true_or]⟩
  · simp [displayTemplateName, getTemplateName, hfind]
  · simp [displayTemplateDocType, getTemplateDocType, hfind]

/-- Closed instance of claim C6: with no templates loaded, a dangling record
is listed and falls back to the unknown labels. -/
theorem history_unknown_template_fallback_witness :
    (⟨"h1", "t-gone", "pdf", "2025-01-01"⟩ : HistoryRecord) ∈
        filteredHistory [] [⟨"h1", "t-gone", "pdf", "2025-01-01"⟩] "" ∧
      displayTemplateName [] "t-gone" = "Unknown Template" ∧
      displayTemplateDocType [] "t-gone" = "N/A" :=
  history_unknown_template_fallback [] [⟨"h1", "t-gone", "pdf", "2025-01-01"⟩]
    ⟨"h1", "t-gone", "pdf", "2025-01-01"⟩ rfl (List.mem_singleton.mpr rfl)

/-- Claim C7 (code bug): apiService's `getLLMSettings` reduces the backend
rows to a flat key-to-value object, so every entry of the produced object is
a `(config_key, config_value)` pair and the `description` field is dropped —
contradicting the settings view, whose own comment documents the shape
`key -> { config_key, config_value, description }` and which binds
`settings[key].config_value` and `setting.description`. -/
theorem getLLMSettings_drops_description :
    getLLMSettingsObject
        [⟨"llm_model_name", "gemini-pro", "Which Gemini model to use"⟩] =
      [("llm_model_name", "gemini-pro")] ∧
    ∀ (rows : List LLMSettingRow) (kv : String × String),
      kv ∈ getLLMSettingsObject rows →
      ∃ row ∈ rows, kv = (row.config_key, row.config_value) := by
  refine ⟨rfl, ?_⟩
  have key : ∀ (rows : List LLMSettingRow) (acc : List (String × String))
      (kv : String × String),
      kv ∈ rows.foldl
          (fun acc setting =>
            acc ++ [(setting.config_key, setting.config_value)]) acc →
      kv ∈ acc ∨ ∃ row ∈ rows, kv = (row.config_key, row.config_value) := by
    intro rows
    induction rows with
    | nil => intro acc kv h; exact Or.inl h
    | cons r rs ih =>
      intro acc kv h
      rcases ih (acc ++ [(r.config_key, r.config_value)]) kv h with
        h' | ⟨row, hrow, hkv⟩
      · rcases List.mem_append.mp h' with h'' | h''
        · exact Or.inl h''
        · exact Or.inr ⟨r, List.mem_cons_self r rs, List.mem_singleton.mp h''⟩
      · exact Or.inr ⟨row, List.mem_cons_of_mem _ hrow, hkv⟩
  intro rows kv h
  rcases key rows [] kv h with h' | h'
  · exact absurd h' (List.not_mem_nil kv)
  · exact h'

/-- Closed instance of claim C7's theorem: the pair produced for a settings
row carries only the key and the value. -/
theorem getLLMSettings_drops_description_witness :
    ∃ row ∈ [(⟨"llm_temperature", "0.7", "Sampling temperature"⟩ :
        LLMSettingRow)],
      (("llm_temperature", "0.7") : String × String) =
        (row.config_key, row.config_value) :=
  getLLMSettings_drops_description.2
    [⟨"llm_temperature", "0.7", "Sampling temperature"⟩]
    ("llm_temperature", "0.7") (by decide)

/-- Claim C8: placeholder names are compared by exact string equality, so a
body whose match list contains both `"Name"` and `"name"` keeps both as
distinct placeholders in the extractor's output. -/
theorem extractPlaceholders_case_sensitive :
    ∀ s : String, "Name" ∈ regexMatchNames s → "name" ∈ regexMatchNames s →
      "Name" ∈ extractPlaceholders s ∧ "name" ∈ extractPlaceholders s ∧
        ("Name" : String) ≠ "name" := by
  intro s h1 h2
  have hs : s ≠ "" := by
    intro h
    subst h
    exact absurd h1 (List.not_mem_nil _)
  refine ⟨?_, ?_, by decide⟩
  · simp [extractPlaceholders, hs, dedupFirst, mem_dedupFirstAux, h1]
  · simp [extractPlaceholders, hs, dedupFirst, mem_dedupFirstAux, h2]

/-- Closed instance of claim C8 on the body `"{Name} vs {name}"`. -/
theorem extractPlaceholders_case_sensitive_witness :
    "Name" ∈ extractPlaceholders "\x7bName\x7d vs \x7bname\x7d" ∧
      "name" ∈ extractPlaceholders "\x7bName\x7d vs \x7bname\x7d" ∧
      ("Name" : String) ≠ "name" :=
  extractPlaceholders_case_sensitive "\x7bName\x7d vs \x7bname\x7d"
    (by decide) (by decide)

/-- Claim C9: every template in the `activeTemplates` list offered by the
generate-document selector has `is_active` true, so an inactive template can
never be chosen through this form. -/
theorem activeTemplates_all_active :
    ∀ (templates : List Template) (tpl : Template),
      tpl ∈ activeTemplates templates → tpl.is_active = true := by
  intro templates tpl h
  exact (List.mem_filter.mp h).2

/-- Closed instance of claim C9. -/
theorem activeTemplates_all_active_witness :
    (⟨"t1", "T1", "Quote", "", true⟩ : Template).is_active = true :=
  activeTemplates_all_active
    [⟨"t1", "T1", "Quote", "", true⟩, ⟨"t2", "T2", "Invoice", "", false⟩]
    ⟨"t1", "T1", "Quote", "", true⟩
    (List.mem_filter.mpr ⟨List.mem_cons_self _ _, rfl⟩)

/-- Claim C10: when `JSON.parse` of the test input throws a `SyntaxError`,
`testPrompt` makes no API call, shows the invalid-JSON error message, and
marks the test result unsuccessful, for every prior state and every outcome
the API call would have had. -/
theorem testPrompt_invalid_json_no_request :
    ∀ (tpl : Template) (st : TestState) (msg : String) (api : ApiOutcome),
      testPrompt (some tpl) st (JsonParseResult.invalid msg) api =
        ({ testResult := some { success := false, output := none }
           testError := some ("Invalid JSON in test input data: " ++ msg) },
         false) := by
  intro tpl st msg api
  rfl
